import Mathlib

/-!
Verification development for `fmriprep/workflows/bold/reference.py`:
the `init_raw_boldref_wf` workflow builder (raw BOLD reference generation).

The source builds a nipype workflow out of six nodes and a fixed edge list.
We embed the constructed workflow as explicit Lean data (nodes, edges,
presets, description string), translated line by line from
`init_raw_boldref_wf`, and an execution semantics over that data.
-/

namespace BoldRef

/-- The interface class wrapped by each node, as named in the source:
`IdentityInterface` (niu), `ValidateImage`, `NonsteadyStatesDetector`,
`RobustAverage`, and `niu.Function(function=pass_dummy_scans)`. -/
inductive NodeKind where
  | identityInterface
  | validateImage
  | nonsteadyStatesDetector
  | robustAverage
  | functionPassDummyScans
deriving DecidableEq, Repr

/-- A workflow node: `pe.Node(interface, name=..., mem_gb=...,
run_without_submitting=...)`.  `inFields`/`outFields` are the input and
output port names the node exposes (for `IdentityInterface` these are the
`fields=[...]` list; for the collaborator interfaces, the ports the
workflow wiring uses).  `memGb` is the `mem_gb` execution hint (absent when
the source passes none) and `runWithoutSubmitting` the
`run_without_submitting` hint. -/
structure Node where
  name : String
  kind : NodeKind
  inFields : List String
  outFields : List String
  memGb : Option ℚ
  runWithoutSubmitting : Bool
deriving DecidableEq, Repr

/-- One entry of the `workflow.connect` list: the binding
`(srcNode, srcPort) → (dstNode, dstPort)`. -/
structure Edge where
  srcNode : String
  srcPort : String
  dstNode : String
  dstPort : String
deriving DecidableEq, Repr

/-- The constructed workflow: name, `__desc__` string, node list in
creation order, the `workflow.connect` edge list, and the inputs preset at
construction time (`inputnode.inputs.bold_file = bold_file`), recorded as
`(node name, port name, literal value)` triples. -/
structure Workflow where
  name : String
  desc : String
  nodes : List Node
  edges : List Edge
  presetInputs : List (String × String × String)
deriving DecidableEq, Repr

/-- `DEFAULT_MEMORY_MIN_GB = 0.01` from the source module. -/
def DEFAULT_MEMORY_MIN_GB : ℚ := 1 / 100

/-- Embedding of `init_raw_boldref_wf(bold_file=None, multiecho=False,
name="raw_boldref_wf")`: builds the workflow exactly as the source does —
the description f-string (the multiplied snippet appears iff `multiecho`),
the six nodes with their hints, the preset of `inputnode.bold_file` when a
literal `bold_file` is given, and the ten `workflow.connect` edges. -/
def init_raw_boldref_wf (bold_file : Option String := none)
    (multiecho : Bool := false) (name : String := "raw_boldref_wf") :
    Workflow :=
  { name := name
    desc :=
      "First, a reference volume was generated" ++
        (if multiecho then " from the shortest echo of the BOLD run" else "") ++
        ",\nusing a custom methodology of *fMRIPrep*, for use in head motion correction.\n"
    nodes :=
      [ { name := "inputnode", kind := .identityInterface
          inFields := ["bold_file", "dummy_scans"]
          outFields := ["bold_file", "dummy_scans"]
          memGb := none, runWithoutSubmitting := false },
        { name := "outputnode", kind := .identityInterface
          inFields := ["bold_file", "boldref", "skip_vols", "algo_dummy_scans"]
          outFields := ["bold_file", "boldref", "skip_vols", "algo_dummy_scans"]
          memGb := none, runWithoutSubmitting := false },
        { name := "val_bold", kind := .validateImage
          inFields := ["in_file"], outFields := ["out_file"]
          memGb := some DEFAULT_MEMORY_MIN_GB, runWithoutSubmitting := false },
        { name := "get_dummy", kind := .nonsteadyStatesDetector
          inFields := ["in_file"], outFields := ["n_dummy", "t_mask"]
          memGb := none, runWithoutSubmitting := false },
        { name := "gen_avg", kind := .robustAverage
          inFields := ["in_file", "t_mask"], outFields := ["out_file"]
          memGb := some 1, runWithoutSubmitting := false },
        { name := "calc_dummy_scans", kind := .functionPassDummyScans
          inFields := ["dummy_scans", "algo_dummy_scans"]
          outFields := ["skip_vols_num"]
          memGb := some DEFAULT_MEMORY_MIN_GB, runWithoutSubmitting := true } ]
    edges :=
      [ ⟨"inputnode", "bold_file", "val_bold", "in_file"⟩,
        ⟨"inputnode", "bold_file", "get_dummy", "in_file"⟩,
        ⟨"inputnode", "dummy_scans", "calc_dummy_scans", "dummy_scans"⟩,
        ⟨"val_bold", "out_file", "gen_avg", "in_file"⟩,
        ⟨"get_dummy", "t_mask", "gen_avg", "t_mask"⟩,
        ⟨"get_dummy", "n_dummy", "calc_dummy_scans", "algo_dummy_scans"⟩,
        ⟨"val_bold", "out_file", "outputnode", "bold_file"⟩,
        ⟨"calc_dummy_scans", "skip_vols_num", "outputnode", "skip_vols"⟩,
        ⟨"gen_avg", "out_file", "outputnode", "boldref"⟩,
        ⟨"get_dummy", "n_dummy", "outputnode", "algo_dummy_scans"⟩ ]
    presetInputs :=
      match bold_file with
      | some f => [("inputnode", "bold_file", f)]
      | none => [] }

/-- Modelled from the spec: `pass_dummy_scans` (imported in the source from
`niworkflows.utils.misc`, body not in this repository) is the reconciliation
function `reconcile_skip_volumes(user_declared, algorithmically_detected)`.
Per the spec: a present, non-negative `user_declared` is returned unchanged;
an absent one yields `algorithmically_detected`; a present negative one
fails with `InvalidSkipCountError`. -/
def reconcile_skip_volumes (user_declared : Option Int)
    (algorithmically_detected : Int) : Except String Int :=
  match user_declared with
  | none => .ok algorithmically_detected
  | some u =>
      if 0 ≤ u then .ok u else .error "InvalidSkipCountError"

/-- A value carried along an edge at execution time: a file path, an
integer count, an optional integer (the user's `dummy_scans`), or a
boolean volume mask. -/
inductive Value where
  | vstr : String → Value
  | vint : Int → Value
  | voptInt : Option Int → Value
  | vmask : List Bool → Value
deriving DecidableEq, Repr

/-- Modelled from the spec: the three collaborator computations (validator,
detector, averager) are external interfaces (`ValidateImage`,
`NonsteadyStatesDetector`, `RobustAverage`), not in this repository; the
spec fixes only their port shapes, so their behaviour is an arbitrary
parameter of the execution semantics. -/
structure Collaborators where
  validate : String → String
  detect_n : String → Int
  detect_mask : String → List Bool
  average : String → List Bool → String

/-- Association-list lookup by string key. -/
def lookupAssoc {α : Type} : List (String × α) → String → Option α
  | [], _ => none
  | (k, v) :: rest, key => if k == key then some v else lookupAssoc rest key

/-- The unique edge (if any) targeting input port `p` of node `n`. -/
def portSource : List Edge → String → String → Option Edge
  | [], _, _ => none
  | e :: rest, n, p =>
      if e.dstNode == n && e.dstPort == p then some e
      else portSource rest n p

/-- The preset literal (if any) for port `p` of node `n`. -/
def findPreset : List (String × String × String) → String → String →
    Option String
  | [], _, _ => none
  | (n2, p2, v) :: rest, n, p =>
      if n2 == n && p2 == p then some v else findPreset rest n p

/-- The externally fed value (if any) for port `p` of node `n`. -/
def findExternal : List (String × String × Value) → String → String →
    Option Value
  | [], _, _ => none
  | (n2, p2, v) :: rest, n, p =>
      if n2 == n && p2 == p then some v else findExternal rest n p

/-- Modelled from the spec: behaviour of a single node, as a map from its
bound input ports to its output ports.  Passthrough (identity) nodes
republish their inputs; the collaborator nodes apply the corresponding
collaborator function; the `pass_dummy_scans` function node applies
`reconcile_skip_volumes` to `(dummy_scans, algo_dummy_scans)` producing
`skip_vols_num`. -/
def nodeSem (c : Collaborators) (k : NodeKind)
    (ins : List (String × Value)) : Except String (List (String × Value)) :=
  match k with
  | .identityInterface => .ok ins
  | .validateImage =>
      match lookupAssoc ins "in_file" with
      | some (.vstr f) => .ok [("out_file", .vstr (c.validate f))]
      | _ => .error "val_bold: missing in_file"
  | .nonsteadyStatesDetector =>
      match lookupAssoc ins "in_file" with
      | some (.vstr f) =>
          .ok [("n_dummy", .vint (c.detect_n f)),
               ("t_mask", .vmask (c.detect_mask f))]
      | _ => .error "get_dummy: missing in_file"
  | .robustAverage =>
      match lookupAssoc ins "in_file", lookupAssoc ins "t_mask" with
      | some (.vstr f), some (.vmask m) =>
          .ok [("out_file", .vstr (c.average f m))]
      | _, _ => .error "gen_avg: missing inputs"
  | .functionPassDummyScans =>
      match lookupAssoc ins "dummy_scans",
            lookupAssoc ins "algo_dummy_scans" with
      | some (.voptInt u), some (.vint d) =>
          match reconcile_skip_volumes u d with
          | .ok r => .ok [("skip_vols_num", .vint r)]
          | .error s => .error s
      | _, _ => .error "calc_dummy_scans: missing inputs"

/-- The per-node record of computed output-port values. -/
abbrev Computed := List (String × List (String × Value))

/-- Gather the values of the listed input ports of `node`: each port is
fed by its incoming edge (from an already-computed source node), else by a
construction-time preset, else by an externally supplied input; `none`
while some port is not yet available. -/
def gatherInputs (wf : Workflow) (ext : List (String × String × Value))
    (acc : Computed) (node : Node) : List String →
    Option (List (String × Value))
  | [] => some []
  | p :: ps =>
      let v? :=
        match portSource wf.edges node.name p with
        | some e =>
            match lookupAssoc acc e.srcNode with
            | some outs => lookupAssoc outs e.srcPort
            | none => none
        | none =>
            match findPreset wf.presetInputs node.name p with
            | some s => some (.vstr s)
            | none => findExternal ext node.name p
      match v?, gatherInputs wf ext acc node ps with
      | some v, some rest => some ((p, v) :: rest)
      | _, _ => none

/-- Modelled from the spec: one scheduling pass of the external execution
engine — visit each node once, in order, and run any node whose inputs are
all available and which has not run yet; a node failure aborts the run. -/
def evalPass (c : Collaborators) (wf : Workflow)
    (ext : List (String × String × Value)) :
    List Node → Computed → Except String Computed
  | [], acc => .ok acc
  | n :: rest, acc =>
      match lookupAssoc acc n.name with
      | some _ => evalPass c wf ext rest acc
      | none =>
          match gatherInputs wf ext acc n n.inFields with
          | none => evalPass c wf ext rest acc
          | some ins =>
              match nodeSem c n.kind ins with
              | .ok outs => evalPass c wf ext rest (acc ++ [(n.name, outs)])
              | .error s => .error s

/-- Iterate `evalPass` once per element of the driving list (the node
list), so every node whose dependencies can ever be met is reached. -/
def evalRounds (c : Collaborators) (wf : Workflow)
    (ext : List (String × String × Value)) :
    List Node → Computed → Except String Computed
  | [], acc => .ok acc
  | _ :: rest, acc =>
      match evalPass c wf ext wf.nodes acc with
      | .ok acc2 => evalRounds c wf ext rest acc2
      | .error s => .error s

/-- Modelled from the spec: execute a finalized graph — run scheduling
passes until stable, then read off the output boundary node's ports. -/
def evalGraph (c : Collaborators) (wf : Workflow)
    (ext : List (String × String × Value)) :
    Except String (List (String × Value)) :=
  match evalRounds c wf ext wf.nodes [] with
  | .ok acc =>
      match lookupAssoc acc "outputnode" with
      | some outs => .ok outs
      | none => .error "outputnode not computed"
  | .error s => .error s

/-- End-to-end run of the reference workflow: build the graph with a
literal `bold_file` (presetting `inputnode.bold_file`), feed `dummy_scans`
on the remaining boundary input, and execute. -/
def runReferenceGraph (c : Collaborators) (bold_file : String)
    (dummy_scans : Option Int) : Except String (List (String × Value)) :=
  evalGraph c (init_raw_boldref_wf (some bold_file) false "raw_boldref_wf")
    [("inputnode", "dummy_scans", .voptInt dummy_scans)]

/-- The node of a given name, if any. -/
def findNode : List Node → String → Option Node
  | [], _ => none
  | n :: rest, key => if n.name == key then some n else findNode rest key

/-- The names of a workflow's nodes. -/
def nodeNames (wf : Workflow) : List String :=
  wf.nodes.map (fun n => n.name)

/-- One breadth step of edge-following: add the head of every edge whose
tail is already reached. -/
def reachStep (es : List Edge) (r : List String) : List String :=
  r ++ (es.filter
    (fun e => r.contains e.srcNode && !(r.contains e.dstNode))).map
      (fun e => e.dstNode)

/-- Iterated breadth steps. -/
def reachN (es : List Edge) : Nat → List String → List String
  | 0, r => r
  | k + 1, r => reachN es k (reachStep es r)

/-- The nodes reachable from `src` by a directed path of edges
(`es.length` steps saturate any path). -/
def reachableFrom (es : List Edge) (src : String) : List String :=
  reachN es es.length [src]

/-- Direct successors of node `n`. -/
def succs (es : List Edge) (n : String) : List String :=
  (es.filter (fun e => e.srcNode == n)).map (fun e => e.dstNode)

/-- `true` iff some node reaches itself through at least one edge. -/
def hasCycle (es : List Edge) (names : List String) : Bool :=
  names.any (fun n => (reachN es es.length (succs es n)).contains n)

/-- `true` iff no two edges target the same `(dstNode, dstPort)` pair. -/
def noFanIn : List Edge → Bool
  | [] => true
  | e :: rest =>
      rest.all (fun e2 => !(e2.dstNode == e.dstNode && e2.dstPort == e.dstPort))
        && noFanIn rest

/-- A concrete collaborator assignment realizing the end-to-end scenario:
the detector reports 4 dummy volumes at the start of the series. -/
def demoCollaborators : Collaborators :=
  { validate := fun f => "validated:" ++ f
    detect_n := fun _ => 4
    detect_mask := fun _ => [false, false, false, false, true]
    average := fun f _ => "boldref:" ++ f }

/-- The node and edge lists of the constructed workflow do not depend on
the construction arguments. -/
theorem edges_const (bf : Option String) (me : Bool) (nm : String) :
    (init_raw_boldref_wf bf me nm).edges =
    (init_raw_boldref_wf none false "raw_boldref_wf").edges := rfl

/-- The node list of the constructed workflow does not depend on the
construction arguments. -/
theorem nodes_const (bf : Option String) (me : Bool) (nm : String) :
    (init_raw_boldref_wf bf me nm).nodes =
    (init_raw_boldref_wf none false "raw_boldref_wf").nodes := rfl

/-- The node-name list of the constructed workflow does not depend on the
construction arguments. -/
theorem nodeNames_const (bf : Option String) (me : Bool) (nm : String) :
    nodeNames (init_raw_boldref_wf bf me nm) =
    nodeNames (init_raw_boldref_wf none false "raw_boldref_wf") := rfl

/-- The description string depends only on the `multiecho` flag. -/
theorem desc_const (bf : Option String) (me : Bool) (nm : String) :
    (init_raw_boldref_wf bf me nm).desc =
    (init_raw_boldref_wf none me "raw_boldref_wf").desc := rfl

/-- Executing the reference workflow with `dummy_scans` absent publishes
the validated file, the averaged reference, and the detector's count on
both `skip_vols` and `algo_dummy_scans`. -/
theorem runReferenceGraph_none (c : Collaborators) (bf : String) :
    runReferenceGraph c bf none =
      .ok [("bold_file", .vstr (c.validate bf)),
           ("boldref", .vstr (c.average (c.validate bf) (c.detect_mask bf))),
           ("skip_vols", .vint (c.detect_n bf)),
           ("algo_dummy_scans", .vint (c.detect_n bf))] := rfl

/-- Executing the reference workflow with a present, non-negative
`dummy_scans = u` publishes `u` on `skip_vols` and still the detector's
count on `algo_dummy_scans`. -/
theorem runReferenceGraph_nonneg (c : Collaborators) (bf : String)
    (u : Int) (h : 0 ≤ u) :
    runReferenceGraph c bf (some u) =
      .ok [("bold_file", .vstr (c.validate bf)),
           ("boldref", .vstr (c.average (c.validate bf) (c.detect_mask bf))),
           ("skip_vols", .vint u),
           ("algo_dummy_scans", .vint (c.detect_n bf))] := by
  have hrec : ∀ d : Int, reconcile_skip_volumes (some u) d = .ok u := by
    intro d
    simp [reconcile_skip_volumes, h]
  simp [runReferenceGraph, evalGraph, evalRounds, evalPass, gatherInputs,
    nodeSem, portSource, lookupAssoc, findPreset, findExternal,
    init_raw_boldref_wf, hrec]

/-- Executing the reference workflow with a present, negative
`dummy_scans` fails with `InvalidSkipCountError`. -/
theorem runReferenceGraph_neg (c : Collaborators) (bf : String)
    (u : Int) (h : u < 0) :
    runReferenceGraph c bf (some u) = .error "InvalidSkipCountError" := by
  have hrec : ∀ d : Int, reconcile_skip_volumes (some u) d =
      .error "InvalidSkipCountError" := by
    intro d
    simp [reconcile_skip_volumes, not_le.mpr h]
  simp [runReferenceGraph, evalGraph, evalRounds, evalPass, gatherInputs,
    nodeSem, portSource, lookupAssoc, findPreset, findExternal,
    init_raw_boldref_wf, hrec]

/-- C1: `reconcile_skip_volumes` returns a present, non-negative
`user_declared` value unchanged (including an explicit 0) for every
detected count, and returns the detected count when `user_declared` is
absent; in the graph this function is the one wrapped by the
`calc_dummy_scans` node (whose semantics `nodeSem` applies
`reconcile_skip_volumes`), fed by `inputnode.dummy_scans` and the
detector's `n_dummy`. -/
theorem claim_C1_reconcile_user_override :
    (∀ (u d : Int), 0 ≤ u → reconcile_skip_volumes (some u) d = .ok u) ∧
    (∀ d : Int, reconcile_skip_volumes none d = .ok d) ∧
    (∀ (bf : Option String) (me : Bool) (nm : String),
      (findNode (init_raw_boldref_wf bf me nm).nodes "calc_dummy_scans").map
          (fun n => n.kind) = some .functionPassDummyScans ∧
      Edge.mk "inputnode" "dummy_scans" "calc_dummy_scans" "dummy_scans" ∈
        (init_raw_boldref_wf bf me nm).edges ∧
      Edge.mk "get_dummy" "n_dummy" "calc_dummy_scans" "algo_dummy_scans" ∈
        (init_raw_boldref_wf bf me nm).edges) := by
  refine ⟨fun u d h => by simp [reconcile_skip_volumes, h],
    fun d => rfl, fun bf me nm => ?_⟩
  rw [nodes_const bf me nm, edges_const bf me nm]
  decide

/-- C1 witness: concrete reconciliations. -/
theorem claim_C1_reconcile_user_override_witness :
    reconcile_skip_volumes (some 5) 12 = .ok 5 ∧
    reconcile_skip_volumes (some 0) 12 = .ok 0 ∧
    reconcile_skip_volumes none 12 = .ok 12 :=
  ⟨claim_C1_reconcile_user_override.1 5 12 (by decide),
   claim_C1_reconcile_user_override.1 0 12 (by decide),
   claim_C1_reconcile_user_override.2.1 12⟩

/-- C2 counterexample: in the graph built with the default arguments the
detector (`get_dummy`) is NOT fed by the validator — every edge into it
comes straight from `inputnode.bold_file` (the raw file), and no edge at
all runs from `val_bold` to `get_dummy`. -/
theorem claim_C2_counterexample :
    (∀ e ∈ (init_raw_boldref_wf none false "raw_boldref_wf").edges,
      e.dstNode = "get_dummy" →
        e.srcNode = "inputnode" ∧ e.srcPort = "bold_file") ∧
    (¬ ∃ e ∈ (init_raw_boldref_wf none false "raw_boldref_wf").edges,
      e.srcNode = "val_bold" ∧ e.dstNode = "get_dummy") ∧
    Edge.mk "inputnode" "bold_file" "get_dummy" "in_file" ∈
      (init_raw_boldref_wf none false "raw_boldref_wf").edges := by
  decide

/-- C2 amended: in every constructed graph the detector consumes the raw
`bold_file` directly from the input boundary node, in parallel with the
validator; it is the averager, not the detector, that consumes the
validator's output, alongside the detector's mask. -/
theorem claim_C2_detector_reads_raw_input (bf : Option String) (me : Bool)
    (nm : String) :
    Edge.mk "inputnode" "bold_file" "get_dummy" "in_file" ∈
      (init_raw_boldref_wf bf me nm).edges ∧
    Edge.mk "inputnode" "bold_file" "val_bold" "in_file" ∈
      (init_raw_boldref_wf bf me nm).edges ∧
    Edge.mk "val_bold" "out_file" "gen_avg" "in_file" ∈
      (init_raw_boldref_wf bf me nm).edges ∧
    Edge.mk "get_dummy" "t_mask" "gen_avg" "t_mask" ∈
      (init_raw_boldref_wf bf me nm).edges ∧
    (∀ e ∈ (init_raw_boldref_wf bf me nm).edges,
      e.dstNode = "get_dummy" → e.srcNode = "inputnode") := by
  rw [edges_const bf me nm]
  decide

/-- C2 amended witness: the detector's input edge, concretely. -/
theorem claim_C2_detector_reads_raw_input_witness :
    Edge.mk "inputnode" "bold_file" "get_dummy" "in_file" ∈
      (init_raw_boldref_wf (some "scan.ext") false "raw_boldref_wf").edges ∧
    (Edge.mk "inputnode" "bold_file" "get_dummy" "in_file").srcNode =
      "inputnode" :=
  ⟨(claim_C2_detector_reads_raw_input (some "scan.ext") false
      "raw_boldref_wf").1,
   (claim_C2_detector_reads_raw_input (some "scan.ext") false
      "raw_boldref_wf").2.2.2.2
     (Edge.mk "inputnode" "bold_file" "get_dummy" "in_file")
     (by decide) rfl⟩

/-- C3: `reconcile_skip_volumes` fails with `InvalidSkipCountError` for
every present negative `user_declared` and every detected count; it fails
only in that case; a whole run of the reference workflow fails exactly
when `dummy_scans` is present and negative (the only runtime validation
failure owned by the core); and the spec's example
`reconcile_skip_volumes(-1, 12)` fails with `InvalidSkipCountError`. -/
theorem claim_C3_invalid_skip_count :
    (∀ (u d : Int), u < 0 →
      reconcile_skip_volumes (some u) d = .error "InvalidSkipCountError") ∧
    (∀ (u : Option Int) (d : Int),
      (∃ s, reconcile_skip_volumes u d = .error s) ↔
        ∃ v, u = some v ∧ v < 0) ∧
    (∀ (c : Collaborators) (bf : String) (ds : Option Int),
      (∃ s, runReferenceGraph c bf ds = .error s) ↔
        ∃ v, ds = some v ∧ v < 0) ∧
    reconcile_skip_volumes (some (-1)) 12 = .error "InvalidSkipCountError" := by
  have hneg : ∀ (u d : Int), u < 0 →
      reconcile_skip_volumes (some u) d = .error "InvalidSkipCountError" := by
    intro u d h
    simp [reconcile_skip_volumes, not_le.mpr h]
  refine ⟨hneg, fun u d => ⟨?_, ?_⟩, fun c bf ds => ⟨?_, ?_⟩, hneg (-1) 12 (by decide)⟩
  · rintro ⟨s, hs⟩
    match u with
    | none => simp [reconcile_skip_volumes] at hs
    | some v =>
        rcases le_or_lt 0 v with hv | hv
        · simp [reconcile_skip_volumes, hv] at hs
        · exact ⟨v, rfl, hv⟩
  · rintro ⟨v, rfl, hv⟩
    exact ⟨_, hneg v d hv⟩
  · rintro ⟨s, hs⟩
    match ds with
    | none => rw [runReferenceGraph_none] at hs; cases hs
    | some v =>
        rcases le_or_lt 0 v with hv | hv
        · rw [runReferenceGraph_nonneg c bf v hv] at hs; cases hs
        · exact ⟨v, rfl, hv⟩
  · rintro ⟨v, rfl, hv⟩
    exact ⟨_, runReferenceGraph_neg c bf v hv⟩

/-- C3 witness: a concrete negative declared count fails. -/
theorem claim_C3_invalid_skip_count_witness :
    reconcile_skip_volumes (some (-3)) 7 = .error "InvalidSkipCountError" :=
  claim_C3_invalid_skip_count.1 (-3) 7 (by decide)

/-- C4: running the reference graph publishes the detector's raw count
unchanged on `algo_dummy_scans` alongside the reconciled `skip_vols`:
with `dummy_scans` absent both outputs carry the detector's count (so a
detector reporting 4 yields `skip_vols = 4` and `algo_dummy_scans = 4`),
and with a non-negative user override `u` the output carries
`skip_vols = u` while `algo_dummy_scans` still carries the detector's
value. -/
theorem claim_C4_algo_dummy_reported :
    (∀ (c : Collaborators) (bf : String),
      ∃ outs, runReferenceGraph c bf none = .ok outs ∧
        lookupAssoc outs "skip_vols" = some (.vint (c.detect_n bf)) ∧
        lookupAssoc outs "algo_dummy_scans" = some (.vint (c.detect_n bf))) ∧
    (∀ (c : Collaborators) (bf : String) (u : Int), 0 ≤ u →
      ∃ outs, runReferenceGraph c bf (some u) = .ok outs ∧
        lookupAssoc outs "skip_vols" = some (.vint u) ∧
        lookupAssoc outs "algo_dummy_scans" = some (.vint (c.detect_n bf))) :=
  ⟨fun c bf => ⟨_, runReferenceGraph_none c bf, rfl, rfl⟩,
   fun c bf u h => ⟨_, runReferenceGraph_nonneg c bf u h, rfl, rfl⟩⟩

/-- C4 witness: the end-to-end scenario with `bold_file = "scan.ext"`,
`dummy_scans` absent and a detector reporting 4 publishes
`skip_vols = 4` and `algo_dummy_scans = 4`; with the override
`dummy_scans = 2` it publishes `skip_vols = 2` and `algo_dummy_scans = 4`. -/
theorem claim_C4_algo_dummy_reported_witness :
    (∃ outs, runReferenceGraph demoCollaborators "scan.ext" none = .ok outs ∧
      lookupAssoc outs "skip_vols" = some (.vint 4) ∧
      lookupAssoc outs "algo_dummy_scans" = some (.vint 4)) ∧
    (∃ outs, runReferenceGraph demoCollaborators "scan.ext" (some 2) = .ok outs ∧
      lookupAssoc outs "skip_vols" = some (.vint 2) ∧
      lookupAssoc outs "algo_dummy_scans" = some (.vint 4)) :=
  ⟨claim_C4_algo_dummy_reported.1 demoCollaborators "scan.ext",
   claim_C4_algo_dummy_reported.2 demoCollaborators "scan.ext" 2 (by decide)⟩

/-- C5: in every graph built by the constructor, the input boundary node
exposes exactly the ports `bold_file` and `dummy_scans`, the output
boundary node exposes exactly `bold_file`, `boldref`, `skip_vols` and
`algo_dummy_scans`, and each output port is bound by an edge whose source
is one of the computing nodes (`val_bold`, `calc_dummy_scans`, `gen_avg`,
`get_dummy`) — none is left dangling. -/
theorem claim_C5_boundary_port_schema (bf : Option String) (me : Bool)
    (nm : String) :
    ((findNode (init_raw_boldref_wf bf me nm).nodes "inputnode").map
        (fun n => (n.inFields, n.outFields)) =
      some (["bold_file", "dummy_scans"], ["bold_file", "dummy_scans"])) ∧
    ((findNode (init_raw_boldref_wf bf me nm).nodes "outputnode").map
        (fun n => (n.inFields, n.outFields)) =
      some (["bold_file", "boldref", "skip_vols", "algo_dummy_scans"],
            ["bold_file", "boldref", "skip_vols", "algo_dummy_scans"])) ∧
    (∀ p ∈ ["bold_file", "boldref", "skip_vols", "algo_dummy_scans"],
      ∃ e ∈ (init_raw_boldref_wf bf me nm).edges,
        e.dstNode = "outputnode" ∧ e.dstPort = p ∧
        e.srcNode ∈ ["val_bold", "calc_dummy_scans", "gen_avg", "get_dummy"]) := by
  rw [nodes_const bf me nm, edges_const bf me nm]
  decide

/-- C5 witness: the `skip_vols` output port, concretely bound. -/
theorem claim_C5_boundary_port_schema_witness :
    ∃ e ∈ (init_raw_boldref_wf (some "scan.ext") false "raw_boldref_wf").edges,
      e.dstNode = "outputnode" ∧ e.dstPort = "skip_vols" ∧
      e.srcNode ∈ ["val_bold", "calc_dummy_scans", "gen_avg", "get_dummy"] :=
  (claim_C5_boundary_port_schema (some "scan.ext") false "raw_boldref_wf").2.2
    "skip_vols" (by decide)

/-- C6: in every graph built by the constructor, each declared output port
is bound by an edge whose source node is reachable by a directed path
from the input boundary node (as is the output boundary node itself), and
the edge set contains no directed cycle. -/
theorem claim_C6_reachable_and_acyclic (bf : Option String) (me : Bool)
    (nm : String) :
    (∀ p ∈ ["bold_file", "boldref", "skip_vols", "algo_dummy_scans"],
      ∃ e ∈ (init_raw_boldref_wf bf me nm).edges,
        e.dstNode = "outputnode" ∧ e.dstPort = p ∧
        e.srcNode ∈ reachableFrom (init_raw_boldref_wf bf me nm).edges
          "inputnode") ∧
    "outputnode" ∈ reachableFrom (init_raw_boldref_wf bf me nm).edges
      "inputnode" ∧
    hasCycle (init_raw_boldref_wf bf me nm).edges
      (nodeNames (init_raw_boldref_wf bf me nm)) = false := by
  rw [edges_const bf me nm, nodeNames_const bf me nm]
  decide

/-- C6 witness: the `boldref` output port, concretely bound from a node
reachable from the input boundary. -/
theorem claim_C6_reachable_and_acyclic_witness :
    ∃ e ∈ (init_raw_boldref_wf (some "scan.ext") false "raw_boldref_wf").edges,
      e.dstNode = "outputnode" ∧ e.dstPort = "boldref" ∧
      e.srcNode ∈ reachableFrom
        (init_raw_boldref_wf (some "scan.ext") false "raw_boldref_wf").edges
        "inputnode" :=
  (claim_C6_reachable_and_acyclic (some "scan.ext") false "raw_boldref_wf").1
    "boldref" (by decide)

/-- C7: in every constructed graph, each `(target node, target port)` pair
is the target of at most one edge, while fan-out from one output port to
several inputs does occur — one node's output feeds both the averager and
the output boundary. -/
theorem claim_C7_single_binding_per_input (bf : Option String) (me : Bool)
    (nm : String) :
    noFanIn (init_raw_boldref_wf bf me nm).edges = true ∧
    (∃ e1 ∈ (init_raw_boldref_wf bf me nm).edges,
      ∃ e2 ∈ (init_raw_boldref_wf bf me nm).edges,
        e1.srcNode = e2.srcNode ∧ e1.srcPort = e2.srcPort ∧
        e1.dstNode = "gen_avg" ∧ e2.dstNode = "outputnode") := by
  rw [edges_const bf me nm]
  decide

/-- C8: two constructions differing only in the `multiecho` flag produce
identical node sets (hence identical port names and hints), identical
edge sets, identical presets and name; only the attached description
string differs — it gains the shortest-echo phrase when `multiecho` is
set. -/
theorem claim_C8_multiecho_desc_only (bf : Option String) (nm : String) :
    (init_raw_boldref_wf bf true nm).nodes =
      (init_raw_boldref_wf bf false nm).nodes ∧
    (init_raw_boldref_wf bf true nm).edges =
      (init_raw_boldref_wf bf false nm).edges ∧
    (init_raw_boldref_wf bf true nm).presetInputs =
      (init_raw_boldref_wf bf false nm).presetInputs ∧
    (init_raw_boldref_wf bf true nm).name =
      (init_raw_boldref_wf bf false nm).name ∧
    (init_raw_boldref_wf bf true nm).desc ≠
      (init_raw_boldref_wf bf false nm).desc ∧
    (init_raw_boldref_wf bf true nm).desc =
      "First, a reference volume was generated from the shortest echo of the BOLD run,\nusing a custom methodology of *fMRIPrep*, for use in head motion correction.\n" ∧
    (init_raw_boldref_wf bf false nm).desc =
      "First, a reference volume was generated,\nusing a custom methodology of *fMRIPrep*, for use in head motion correction.\n" := by
  refine ⟨rfl, rfl, rfl, rfl, ?_, rfl, rfl⟩
  rw [desc_const bf true nm, desc_const bf false nm]
  decide

/-- C9: supplying a literal `bold_file` at construction time presets the
input boundary node's `bold_file` port to that value, supplying none
leaves no preset, and the rest of the graph (nodes, edges, description,
name) is the same either way. -/
theorem claim_C9_bold_file_preset (s : String) (me : Bool) (nm : String) :
    (init_raw_boldref_wf (some s) me nm).presetInputs =
      [("inputnode", "bold_file", s)] ∧
    (init_raw_boldref_wf none me nm).presetInputs = [] ∧
    (init_raw_boldref_wf (some s) me nm).nodes =
      (init_raw_boldref_wf none me nm).nodes ∧
    (init_raw_boldref_wf (some s) me nm).edges =
      (init_raw_boldref_wf none me nm).edges ∧
    (init_raw_boldref_wf (some s) me nm).desc =
      (init_raw_boldref_wf none me nm).desc ∧
    (init_raw_boldref_wf (some s) me nm).name =
      (init_raw_boldref_wf none me nm).name :=
  ⟨rfl, rfl, rfl, rfl, rfl, rfl⟩

/-- C10: construction is deterministic — equal arguments give equal
workflows (node names, kinds, hints, edges, presets, description) — and
the execution hints are as the source sets them: the 0.01 GB minimal
memory hint on the validator and reconciliation nodes, 1 GB on the
averager, and run-without-submitting on the reconciliation node only. -/
theorem claim_C10_deterministic_construction (bf1 bf2 : Option String)
    (me1 me2 : Bool) (nm1 nm2 : String)
    (hbf : bf1 = bf2) (hme : me1 = me2) (hnm : nm1 = nm2) :
    init_raw_boldref_wf bf1 me1 nm1 = init_raw_boldref_wf bf2 me2 nm2 ∧
    (findNode (init_raw_boldref_wf bf1 me1 nm1).nodes "val_bold").map
        (fun n => (n.memGb, n.runWithoutSubmitting)) =
      some (some DEFAULT_MEMORY_MIN_GB, false) ∧
    (findNode (init_raw_boldref_wf bf1 me1 nm1).nodes "calc_dummy_scans").map
        (fun n => (n.memGb, n.runWithoutSubmitting)) =
      some (some DEFAULT_MEMORY_MIN_GB, true) ∧
    (findNode (init_raw_boldref_wf bf1 me1 nm1).nodes "gen_avg").map
        (fun n => (n.memGb, n.runWithoutSubmitting)) =
      some (some 1, false) ∧
    DEFAULT_MEMORY_MIN_GB = 1 / 100 := by
  subst hbf hme hnm
  exact ⟨rfl, rfl, rfl, rfl, rfl⟩

/-- C10 witness: a concrete pair of equal-argument constructions. -/
theorem claim_C10_deterministic_construction_witness :
    init_raw_boldref_wf (some "scan.ext") false "raw_boldref_wf" =
      init_raw_boldref_wf (some "scan.ext") false "raw_boldref_wf" ∧
    (findNode (init_raw_boldref_wf (some "scan.ext") false
        "raw_boldref_wf").nodes "val_bold").map
        (fun n => (n.memGb, n.runWithoutSubmitting)) =
      some (some DEFAULT_MEMORY_MIN_GB, false) ∧
    (findNode (init_raw_boldref_wf (some "scan.ext") false
        "raw_boldref_wf").nodes "calc_dummy_scans").map
        (fun n => (n.memGb, n.runWithoutSubmitting)) =
      some (some DEFAULT_MEMORY_MIN_GB, true) ∧
    (findNode (init_raw_boldref_wf (some "scan.ext") false
        "raw_boldref_wf").nodes "gen_avg").map
        (fun n => (n.memGb, n.runWithoutSubmitting)) =
      some (some 1, false) ∧
    DEFAULT_MEMORY_MIN_GB = 1 / 100 :=
  claim_C10_deterministic_construction (some "scan.ext") (some "scan.ext")
    false false "raw_boldref_wf" "raw_boldref_wf" rfl rfl rfl

end BoldRef
